import Mathlib

/-!
Verification of `lib/lua_sys/scripts/copy_lua.py`, the PlatformIO pre-build
asset stager of this repository.

The script is a linear pass over a filesystem rooted at a project directory:

  project_dir = env.get("PROJECT_DIR")
  data_dir = os.path.join(project_dir, "data")
  lua_dir = os.path.join(project_dir, "lua")
  if not os.path.exists(data_dir):
      os.makedirs(data_dir)
      print("Created data directory: " + data_dir)
  sys_lua_src = os.path.join(lua_dir, "sys.lua")
  sys_lua_dst = os.path.join(data_dir, "sys.lua")
  if os.path.exists(sys_lua_src):
      shutil.copy2(sys_lua_src, sys_lua_dst)
      print("Copied sys.lua to data folder")
  else:
      print("WARNING: sys.lua not found at " + sys_lua_src)
  print("Pre-build script completed")

We embed the filesystem as a flat map from path strings to entries (regular
files carrying content, modification time and permission mode, or
directories), and the POSIX path arithmetic of `os.path.join` and
`os.path.basename` on character lists.  `shutil.copy2` is modelled with its
documented semantics: if the destination path names a directory the file is
copied into that directory under the source's basename; a directory source,
a non-directory destination parent, or a directory at the final destination
path raise faults, which the script does not catch.  A run returns the
resulting filesystem, the list of console lines printed, and the fault that
aborted the run, if any (output printed before the fault is kept).
-/

/-- A filesystem entry: a directory, or a regular file with its byte
content, its modification time and its permission mode (the two pieces of
metadata `shutil.copy2` preserves). -/
inductive Entry : Type where
  | dir : Entry
  | file : (content : String) → (mtime : Nat) → (mode : Nat) → Entry
deriving DecidableEq

/-- A filesystem state: a flat map from absolute path strings to entries.
`none` means no entry exists at that path. -/
def FS : Type := String → Option Entry

/-- Update the filesystem with an entry at a path. -/
def FS.set (fs : FS) (p : String) (e : Entry) : FS :=
  fun q => if q = p then some e else fs q

/-- Python `str.startswith("/")`: the first character is a slash. -/
def startsWithSlash (s : String) : Bool :=
  s.data.head? == some '/'

/-- Python `str.endswith("/")`: the last character is a slash. -/
def endsWithSlash (s : String) : Bool :=
  s.data.getLast? == some '/'

/-- POSIX `os.path.join a b` for a single extra component: if `b` is
absolute it wins; otherwise it is appended to `a`, inserting a separator
unless `a` is empty or already ends with one. -/
def osPathJoin (a b : String) : String :=
  if startsWithSlash b then b
  else if a = "" ∨ endsWithSlash a then a ++ b
  else a ++ "/" ++ b

/-- POSIX `os.path.basename`: the part of the path after the last slash. -/
def basename (p : String) : String :=
  ⟨(p.data.reverse.takeWhile (fun c => c != '/')).reverse⟩

/-- Faults the filesystem primitives can raise (Python exception classes).
The script installs no handler, so any of these aborts the run. -/
inductive Fault : Type where
  | fileNotFoundError : String → Fault
  | isADirectoryError : String → Fault
  | notADirectoryError : String → Fault
deriving DecidableEq

/-- Model of `os.makedirs p`: create the directory at `p`.  The script only calls
this under a `not os.path.exists` guard, so the `FileExistsError` branch is
unreachable; environment faults (permissions, I/O) are outside the state
this model tracks. -/
def makedirs (fs : FS) (p : String) : FS :=
  fs.set p Entry.dir

/-- Model of `shutil.copy2 src dst`: copy the file at `src` to `dst`, preserving
content, modification time and permission mode.  Per its documentation, if
`dst` names a directory the file is copied into it under `basename src`.
Reading a directory source raises `IsADirectoryError`; writing under a
non-directory parent raises `NotADirectoryError`; writing onto a directory
raises `IsADirectoryError`; a missing parent raises `FileNotFoundError`.
The flat path map cannot re-derive the parent of an arbitrary path string,
so the caller passes `dstParent`, the directory the script joined `dst`
from; when the copy retargets into a directory `dst`, the parent of the
retargeted path is `dst` itself. -/
def copy2 (fs : FS) (src dst dstParent : String) : Except Fault FS :=
  let dstR := if fs dst = some Entry.dir then osPathJoin dst (basename src) else dst
  let dstRParent := if fs dst = some Entry.dir then dst else dstParent
  match fs src with
  | none => Except.error (Fault.fileNotFoundError src)
  | some Entry.dir => Except.error (Fault.isADirectoryError src)
  | some (Entry.file c m q) =>
    match fs dstRParent with
    | some (Entry.file _ _ _) => Except.error (Fault.notADirectoryError dstR)
    | none => Except.error (Fault.fileNotFoundError dstR)
    | some Entry.dir =>
      match fs dstR with
      | some Entry.dir => Except.error (Fault.isADirectoryError dstR)
      | _ => Except.ok (fs.set dstR (Entry.file c m q))

/-- The path `data_dir = os.path.join(project_dir, "data")`. -/
def dataDirOf (projectDir : String) : String :=
  osPathJoin projectDir "data"

/-- The path `lua_dir = os.path.join(project_dir, "lua")`. -/
def luaDirOf (projectDir : String) : String :=
  osPathJoin projectDir "lua"

/-- The path `sys_lua_src = os.path.join(lua_dir, "sys.lua")`. -/
def srcFileOf (projectDir : String) : String :=
  osPathJoin (luaDirOf projectDir) "sys.lua"

/-- The path `sys_lua_dst = os.path.join(data_dir, "sys.lua")`. -/
def dstFileOf (projectDir : String) : String :=
  osPathJoin (dataDirOf projectDir) "sys.lua"

/-- The filesystem after the directory-ensure step of the script:
`if not os.path.exists(data_dir): os.makedirs(data_dir)`. -/
def ensureData (projectDir : String) (fs : FS) : FS :=
  if (fs (dataDirOf projectDir)).isSome then fs
  else makedirs fs (dataDirOf projectDir)

/-- Outcome of one run of the stager: the resulting filesystem, the console
lines printed (in order), and the uncaught fault that aborted the run, if
any.  `fault = none` means the script ran to completion. -/
structure RunResult : Type where
  fs : FS
  out : List String
  fault : Option Fault

/-- One run of `copy_lua.py` on a project root: ensure `data/` exists, then
copy `lua/sys.lua` to `data/sys.lua` if it exists, else warn; finally print
the completion line.  A fault from the copy propagates (no handler), so the
lines after it are not printed. -/
def copyLuaRun (projectDir : String) (fs : FS) : RunResult :=
  let dataDir := dataDirOf projectDir
  let fs1 := ensureData projectDir fs
  let out1 : List String :=
    if (fs dataDir).isSome then [] else ["Created data directory: " ++ dataDir]
  let srcFile := srcFileOf projectDir
  let dstFile := dstFileOf projectDir
  if (fs1 srcFile).isSome then
    match copy2 fs1 srcFile dstFile dataDir with
    | Except.ok fs2 =>
      ⟨fs2, out1 ++ ["Copied sys.lua to data folder", "Pre-build script completed"], none⟩
    | Except.error e => ⟨fs1, out1, some e⟩
  else
    ⟨fs1, out1 ++ ["WARNING: sys.lua not found at " ++ srcFile, "Pre-build script completed"],
      none⟩

/-- The empty filesystem. -/
def emptyFS : FS := fun _ => none

/-- The retargeted destination `shutil.copy2` writes to when the destination
path `data/sys.lua` names a directory: `data/sys.lua/<basename of source>`. -/
def deepDstOf (projectDir : String) : String :=
  osPathJoin (dstFileOf projectDir) (basename (srcFileOf projectDir))

/-- The characters `os.path.join projectDir component` places before the
component: the project directory's characters, plus a separator unless the
project directory is empty or already ends with one. -/
def pathStem (P : String) : List Char :=
  P.data ++ (if P = "" ∨ endsWithSlash P then [] else ['/'])

/-- The console lines the directory-ensure step prints. -/
def mkdirOut (P : String) (fs : FS) : List String :=
  if (fs (dataDirOf P)).isSome then [] else ["Created data directory: " ++ dataDirOf P]

/-- The filesystem with a regular file of content `"x"` at `data` and a
regular file of content `"new"` at `lua/sys.lua`, under project root
`/p1`. -/
def fsCounterC1 : FS := fun p =>
  if p = "/p1/data" then some (Entry.file "x" 1 2)
  else if p = "/p1/lua/sys.lua" then some (Entry.file "new" 3 420) else none

/-- The filesystem with only a regular file at `lua/sys.lua`, under project
root `/w1`. -/
def fsWitnessC1 : FS := fun p =>
  if p = "/w1/lua/sys.lua" then some (Entry.file "v" 5 6) else none

/-- The filesystem with directories at `data` and `data/sys.lua` and a
regular file at `lua/sys.lua`, under project root `/p5`. -/
def fsCounterC5 : FS := fun p =>
  if p = "/p5/data" then some Entry.dir
  else if p = "/p5/data/sys.lua" then some Entry.dir
  else if p = "/p5/lua/sys.lua" then some (Entry.file "s" 1 2) else none

/-- The filesystem with a directory at `lua/sys.lua`, under project root
`/w6`. -/
def fsWitnessC6 : FS := fun p =>
  if p = "/w6/lua/sys.lua" then some Entry.dir else none

/-- The filesystem with a regular file at `data` and a regular file at
`lua/sys.lua`, under project root `/w9`. -/
def fsWitnessC9 : FS := fun p =>
  if p = "/w9/data" then some (Entry.file "d" 1 2)
  else if p = "/w9/lua/sys.lua" then some (Entry.file "s" 3 4) else none

/-- The filesystem with a directory at `lua/sys.lua`, under project root
`/wa`. -/
def fsWitnessC10 : FS := fun p =>
  if p = "/wa/lua/sys.lua" then some Entry.dir else none

theorem osPathJoin_data (P b : String) (hb : startsWithSlash b = false) :
    (osPathJoin P b).data = pathStem P ++ b.data := by
  unfold osPathJoin pathStem
  rw [hb]
  simp only [Bool.false_eq_true, if_false]
  by_cases h : P = "" ∨ endsWithSlash P = true
  · rw [if_pos h, if_pos h]
    simp [String.data_append]
  · rw [if_neg h, if_neg h]
    simp [String.data_append, List.append_assoc]

theorem dataDirOf_data (P : String) : (dataDirOf P).data = pathStem P ++ "data".data := by
  unfold dataDirOf
  exact osPathJoin_data P "data" rfl

theorem luaDirOf_data (P : String) : (luaDirOf P).data = pathStem P ++ "lua".data := by
  unfold luaDirOf
  exact osPathJoin_data P "lua" rfl

theorem endsWithSlash_eq_false_of (s : String) (l : List Char) (c : Char)
    (h : s.data = l ++ [c]) (hc : (c == '/') = false) : endsWithSlash s = false := by
  unfold endsWithSlash
  rw [h, List.getLast?_concat]
  have h2 : (some c == some '/') = (c == '/') := rfl
  rw [h2, hc]

theorem ne_empty_of_data (s : String) (l : List Char) (c : Char)
    (h : s.data = l ++ [c]) : ¬ (s = "") := by
  intro he
  rw [he] at h
  exact List.cons_ne_nil _ _ (List.append_eq_nil.mp h.symm).2

theorem pathStem_eq (s : String) (l : List Char) (c : Char)
    (h : s.data = l ++ [c]) (hc : (c == '/') = false) :
    pathStem s = s.data ++ ['/'] := by
  unfold pathStem
  rw [endsWithSlash_eq_false_of s l c h hc]
  simp [ne_empty_of_data s l c h]

theorem srcFileOf_data (P : String) :
    (srcFileOf P).data = pathStem P ++ "lua/sys.lua".data := by
  unfold srcFileOf
  have h3 : (luaDirOf P).data = (pathStem P ++ ['l', 'u']) ++ ['a'] := by
    rw [luaDirOf_data, List.append_assoc]
    rfl
  rw [osPathJoin_data (luaDirOf P) "sys.lua" rfl, pathStem_eq _ _ _ h3 rfl, luaDirOf_data]
  simp only [List.append_assoc]
  rfl

theorem dstFileOf_data (P : String) :
    (dstFileOf P).data = pathStem P ++ "data/sys.lua".data := by
  unfold dstFileOf
  have h3 : (dataDirOf P).data = (pathStem P ++ ['d', 'a', 't']) ++ ['a'] := by
    rw [dataDirOf_data, List.append_assoc]
    rfl
  rw [osPathJoin_data (dataDirOf P) "sys.lua" rfl, pathStem_eq _ _ _ h3 rfl, dataDirOf_data]
  simp only [List.append_assoc]
  rfl

theorem basename_srcFileOf (P : String) : basename (srcFileOf P) = "sys.lua" := by
  apply String.ext
  unfold basename
  rw [srcFileOf_data, List.reverse_append]
  rfl

theorem deepDstOf_data (P : String) :
    (deepDstOf P).data = pathStem P ++ "data/sys.lua/sys.lua".data := by
  unfold deepDstOf
  rw [basename_srcFileOf]
  have h3 : (dstFileOf P).data = (pathStem P ++ "data/sys.lu".data) ++ ['a'] := by
    rw [dstFileOf_data, List.append_assoc]
    rfl
  rw [osPathJoin_data (dstFileOf P) "sys.lua" rfl, pathStem_eq _ _ _ h3 rfl, dstFileOf_data]
  simp only [List.append_assoc]
  rfl

theorem stem_tail_ne {P : String} {s t : String} (ls lt : List Char)
    (hs : s.data = pathStem P ++ ls) (ht : t.data = pathStem P ++ lt)
    (h : ¬ (ls = lt)) : ¬ (s = t) := by
  intro he
  apply h
  have h2 : pathStem P ++ ls = pathStem P ++ lt := by
    rw [← hs, ← ht, he]
  exact List.append_cancel_left h2

theorem dataDir_ne_srcFile (P : String) : ¬ (dataDirOf P = srcFileOf P) :=
  stem_tail_ne _ _ (dataDirOf_data P) (srcFileOf_data P) (by decide)

theorem dataDir_ne_dstFile (P : String) : ¬ (dataDirOf P = dstFileOf P) :=
  stem_tail_ne _ _ (dataDirOf_data P) (dstFileOf_data P) (by decide)

theorem srcFile_ne_dstFile (P : String) : ¬ (srcFileOf P = dstFileOf P) :=
  stem_tail_ne _ _ (srcFileOf_data P) (dstFileOf_data P) (by decide)

theorem deepDst_ne_dataDir (P : String) : ¬ (deepDstOf P = dataDirOf P) :=
  stem_tail_ne _ _ (deepDstOf_data P) (dataDirOf_data P) (by decide)

theorem deepDst_ne_srcFile (P : String) : ¬ (deepDstOf P = srcFileOf P) :=
  stem_tail_ne _ _ (deepDstOf_data P) (srcFileOf_data P) (by decide)

theorem deepDst_ne_dstFile (P : String) : ¬ (deepDstOf P = dstFileOf P) :=
  stem_tail_ne _ _ (deepDstOf_data P) (dstFileOf_data P) (by decide)

theorem FS.set_same (fs : FS) (p : String) (e : Entry) : fs.set p e p = some e := by
  unfold FS.set
  rw [if_pos rfl]

theorem FS.set_ne (fs : FS) (p : String) (e : Entry) (q : String) (h : ¬ (q = p)) :
    fs.set p e q = fs q := by
  unfold FS.set
  rw [if_neg h]

theorem ensureData_src (P : String) (fs : FS) :
    ensureData P fs (srcFileOf P) = fs (srcFileOf P) := by
  unfold ensureData makedirs
  split
  · rfl
  · exact FS.set_ne fs _ _ _ (fun h => dataDir_ne_srcFile P h.symm)

theorem ensureData_dst (P : String) (fs : FS) :
    ensureData P fs (dstFileOf P) = fs (dstFileOf P) := by
  unfold ensureData makedirs
  split
  · rfl
  · exact FS.set_ne fs _ _ _ (fun h => dataDir_ne_dstFile P h.symm)

theorem ensureData_deep (P : String) (fs : FS) :
    ensureData P fs (deepDstOf P) = fs (deepDstOf P) := by
  unfold ensureData makedirs
  split
  · rfl
  · exact FS.set_ne fs _ _ _ (deepDst_ne_dataDir P)

theorem ensureData_dataDir_none (P : String) (fs : FS) (h : fs (dataDirOf P) = none) :
    ensureData P fs (dataDirOf P) = some Entry.dir := by
  unfold ensureData makedirs
  rw [h]
  simp [FS.set_same]

theorem ensureData_dataDir_some (P : String) (fs : FS) (e : Entry)
    (h : fs (dataDirOf P) = some e) : ensureData P fs (dataDirOf P) = some e := by
  unfold ensureData
  rw [h]
  simp
  exact h

theorem deepDstOf_def (P : String) :
    deepDstOf P = osPathJoin (dstFileOf P) (basename (srcFileOf P)) := rfl

theorem ensureData_dataDir_isSome (P : String) (fs : FS) :
    (ensureData P fs (dataDirOf P)).isSome := by
  cases h : fs (dataDirOf P) with
  | none => rw [ensureData_dataDir_none P fs h]; rfl
  | some e => rw [ensureData_dataDir_some P fs e h]; rfl

theorem ensureData_of_isSome (P : String) (fs : FS) (h : (fs (dataDirOf P)).isSome) :
    ensureData P fs = fs := by
  unfold ensureData
  rw [if_pos h]

theorem run_no_src (P : String) (fs : FS) (h : fs (srcFileOf P) = none) :
    copyLuaRun P fs =
      ⟨ensureData P fs,
       mkdirOut P fs ++
         ["WARNING: sys.lua not found at " ++ srcFileOf P, "Pre-build script completed"],
       none⟩ := by
  simp only [copyLuaRun, mkdirOut, ensureData_src, h, Option.isSome_none, Bool.false_eq_true,
    if_false]

theorem run_src_dir (P : String) (fs : FS) (h : fs (srcFileOf P) = some Entry.dir) :
    copyLuaRun P fs =
      ⟨ensureData P fs, mkdirOut P fs, some (Fault.isADirectoryError (srcFileOf P))⟩ := by
  have hc : copy2 (ensureData P fs) (srcFileOf P) (dstFileOf P) (dataDirOf P) =
      Except.error (Fault.isADirectoryError (srcFileOf P)) := by
    simp only [copy2, ensureData_src, h]
  simp only [copyLuaRun, mkdirOut, ensureData_src, h, Option.isSome_some, if_true, hc]

theorem run_copy (P : String) (fs : FS) (c : String) (m q : Nat)
    (hs : fs (srcFileOf P) = some (Entry.file c m q))
    (hd : ensureData P fs (dataDirOf P) = some Entry.dir)
    (hdst : ¬ (fs (dstFileOf P) = some Entry.dir)) :
    copyLuaRun P fs =
      ⟨(ensureData P fs).set (dstFileOf P) (Entry.file c m q),
       mkdirOut P fs ++ ["Copied sys.lua to data folder", "Pre-build script completed"],
       none⟩ := by
  have hc : copy2 (ensureData P fs) (srcFileOf P) (dstFileOf P) (dataDirOf P) =
      Except.ok ((ensureData P fs).set (dstFileOf P) (Entry.file c m q)) := by
    cases hv : fs (dstFileOf P) with
    | none => simp [copy2, ensureData_src, ensureData_dst, hs, hd, hv]
    | some e =>
      cases e with
      | dir => exact absurd hv hdst
      | file c2 m2 q2 => simp [copy2, ensureData_src, ensureData_dst, hs, hd, hv]
  simp only [copyLuaRun, mkdirOut, ensureData_src, hs, Option.isSome_some, if_true, hc]

theorem run_data_file (P : String) (fs : FS) (c : String) (m q : Nat)
    (c2 : String) (m2 q2 : Nat)
    (hs : fs (srcFileOf P) = some (Entry.file c m q))
    (ha : fs (dataDirOf P) = some (Entry.file c2 m2 q2))
    (hdst : ¬ (fs (dstFileOf P) = some Entry.dir)) :
    copyLuaRun P fs = ⟨fs, [], some (Fault.notADirectoryError (dstFileOf P))⟩ := by
  have he : ensureData P fs = fs := ensureData_of_isSome P fs (by rw [ha]; rfl)
  have hc : copy2 fs (srcFileOf P) (dstFileOf P) (dataDirOf P) =
      Except.error (Fault.notADirectoryError (dstFileOf P)) := by
    cases hv : fs (dstFileOf P) with
    | none => simp [copy2, hs, ha, hv]
    | some e =>
      cases e with
      | dir => exact absurd hv hdst
      | file c3 m3 q3 => simp [copy2, hs, ha, hv]
  simp only [copyLuaRun, mkdirOut, he, hs, Option.isSome_some, if_true, hc, ha]

theorem run_into_dir (P : String) (fs : FS) (c : String) (m q : Nat)
    (hs : fs (srcFileOf P) = some (Entry.file c m q))
    (hdst : fs (dstFileOf P) = some Entry.dir)
    (hdeep : ¬ (fs (deepDstOf P) = some Entry.dir)) :
    copyLuaRun P fs =
      ⟨(ensureData P fs).set (deepDstOf P) (Entry.file c m q),
       mkdirOut P fs ++ ["Copied sys.lua to data folder", "Pre-build script completed"],
       none⟩ := by
  have hc : copy2 (ensureData P fs) (srcFileOf P) (dstFileOf P) (dataDirOf P) =
      Except.ok ((ensureData P fs).set (deepDstOf P) (Entry.file c m q)) := by
    cases hv : fs (deepDstOf P) with
    | none => simp [copy2, ensureData_src, ensureData_dst, ensureData_deep,
        hs, hdst, hv, ← deepDstOf_def]
    | some e =>
      cases e with
      | dir => exact absurd hv hdeep
      | file c2 m2 q2 => simp [copy2, ensureData_src, ensureData_dst, ensureData_deep,
          hs, hdst, hv, ← deepDstOf_def]
  simp only [copyLuaRun, mkdirOut, ensureData_src, hs, Option.isSome_some, if_true, hc]

theorem ensureData_other (P : String) (fs : FS) (p : String) (hp : ¬ (p = dataDirOf P)) :
    ensureData P fs p = fs p := by
  unfold ensureData makedirs
  split
  · rfl
  · exact FS.set_ne fs _ _ _ hp

theorem append_ne_lit (a u b : String) (i : Nat) (hia : i < a.data.length)
    (hne : ¬ (a.data[i]? = b.data[i]?)) : ¬ (a ++ u = b) := by
  intro he
  apply hne
  have h2 := congrArg (fun s : String => s.data[i]?) he
  simp only [String.data_append, List.getElem?_append] at h2
  rw [if_pos hia] at h2
  exact h2

theorem append_ne_append (a u b v : String) (i : Nat) (hia : i < a.data.length)
    (hib : i < b.data.length) (hne : ¬ (a.data[i]? = b.data[i]?)) : ¬ (a ++ u = b ++ v) := by
  intro he
  apply hne
  have h2 := congrArg (fun s : String => s.data[i]?) he
  simp only [String.data_append, List.getElem?_append] at h2
  rw [if_pos hia, if_pos hib] at h2
  exact h2

theorem created_ne_copied (d : String) :
    ¬ ("Created data directory: " ++ d = "Copied sys.lua to data folder") :=
  append_ne_lit _ _ _ 1 (by decide) (by decide)

theorem created_ne_completed (d : String) :
    ¬ ("Created data directory: " ++ d = "Pre-build script completed") :=
  append_ne_lit _ _ _ 0 (by decide) (by decide)

theorem created_ne_warning (d s : String) :
    ¬ ("Created data directory: " ++ d = "WARNING: sys.lua not found at " ++ s) :=
  append_ne_append _ _ _ _ 0 (by decide) (by decide) (by decide)

theorem warning_ne_copied (s : String) :
    ¬ ("WARNING: sys.lua not found at " ++ s = "Copied sys.lua to data folder") :=
  append_ne_lit _ _ _ 0 (by decide) (by decide)

theorem warning_ne_completed (s : String) :
    ¬ ("WARNING: sys.lua not found at " ++ s = "Pre-build script completed") :=
  append_ne_lit _ _ _ 0 (by decide) (by decide)

theorem run_into_dir_fault (P : String) (fs : FS) (c : String) (m q : Nat)
    (hs : fs (srcFileOf P) = some (Entry.file c m q))
    (hdst : fs (dstFileOf P) = some Entry.dir)
    (hdeep : fs (deepDstOf P) = some Entry.dir) :
    copyLuaRun P fs =
      ⟨ensureData P fs, mkdirOut P fs, some (Fault.isADirectoryError (deepDstOf P))⟩ := by
  have hc : copy2 (ensureData P fs) (srcFileOf P) (dstFileOf P) (dataDirOf P) =
      Except.error (Fault.isADirectoryError (deepDstOf P)) := by
    simp [copy2, ensureData_src, ensureData_dst, ensureData_deep, hs, hdst, hdeep,
      ← deepDstOf_def]
  simp only [copyLuaRun, mkdirOut, ensureData_src, hs, Option.isSome_some, if_true, hc]

theorem created_mem_mkdirOut (P : String) (fs : FS) :
    ("Created data directory: " ++ dataDirOf P) ∈ mkdirOut P fs ↔ fs (dataDirOf P) = none := by
  unfold mkdirOut
  cases h : fs (dataDirOf P) with
  | none => simp [h]
  | some e => simp [h]

theorem not_mem_mkdirOut_of_ne_created (P : String) (fs : FS) (s : String)
    (h : ¬ (s = "Created data directory: " ++ dataDirOf P)) : ¬ (s ∈ mkdirOut P fs) := by
  unfold mkdirOut
  cases hv : (fs (dataDirOf P)).isSome with
  | true => simp
  | false =>
    simp only [Bool.false_eq_true, if_false, List.mem_singleton]
    exact h

/-- Exhaustive case split for one run of the stager: exactly one of the six
terminal shapes applies (warned, source-is-directory fault, plain copy,
data-path-is-file fault, copy into a directory at the destination path, and
fault on a directory at the retargeted destination). -/
theorem run_split (P : String) (fs : FS) :
    (fs (srcFileOf P) = none ∧
      copyLuaRun P fs =
        ⟨ensureData P fs,
         mkdirOut P fs ++
           ["WARNING: sys.lua not found at " ++ srcFileOf P, "Pre-build script completed"],
         none⟩) ∨
    (fs (srcFileOf P) = some Entry.dir ∧
      copyLuaRun P fs =
        ⟨ensureData P fs, mkdirOut P fs, some (Fault.isADirectoryError (srcFileOf P))⟩) ∨
    (∃ c m q, fs (srcFileOf P) = some (Entry.file c m q) ∧
      ¬ (fs (dstFileOf P) = some Entry.dir) ∧
      ensureData P fs (dataDirOf P) = some Entry.dir ∧
      copyLuaRun P fs =
        ⟨(ensureData P fs).set (dstFileOf P) (Entry.file c m q),
         mkdirOut P fs ++ ["Copied sys.lua to data folder", "Pre-build script completed"],
         none⟩) ∨
    (∃ c m q c2 m2 q2, fs (srcFileOf P) = some (Entry.file c m q) ∧
      ¬ (fs (dstFileOf P) = some Entry.dir) ∧
      fs (dataDirOf P) = some (Entry.file c2 m2 q2) ∧
      copyLuaRun P fs = ⟨fs, [], some (Fault.notADirectoryError (dstFileOf P))⟩) ∨
    (∃ c m q, fs (srcFileOf P) = some (Entry.file c m q) ∧
      fs (dstFileOf P) = some Entry.dir ∧
      ¬ (fs (deepDstOf P) = some Entry.dir) ∧
      copyLuaRun P fs =
        ⟨(ensureData P fs).set (deepDstOf P) (Entry.file c m q),
         mkdirOut P fs ++ ["Copied sys.lua to data folder", "Pre-build script completed"],
         none⟩) ∨
    (∃ c m q, fs (srcFileOf P) = some (Entry.file c m q) ∧
      fs (dstFileOf P) = some Entry.dir ∧
      fs (deepDstOf P) = some Entry.dir ∧
      copyLuaRun P fs =
        ⟨ensureData P fs, mkdirOut P fs, some (Fault.isADirectoryError (deepDstOf P))⟩) := by
  cases hs : fs (srcFileOf P) with
  | none => exact Or.inl ⟨rfl, run_no_src P fs hs⟩
  | some e =>
    cases e with
    | dir => exact Or.inr (Or.inl ⟨rfl, run_src_dir P fs hs⟩)
    | file c m q =>
      by_cases hdir : fs (dstFileOf P) = some Entry.dir
      · by_cases hdeep : fs (deepDstOf P) = some Entry.dir
        · exact Or.inr (Or.inr (Or.inr (Or.inr (Or.inr
            ⟨c, m, q, rfl, hdir, hdeep, run_into_dir_fault P fs c m q hs hdir hdeep⟩))))
        · exact Or.inr (Or.inr (Or.inr (Or.inr (Or.inl
            ⟨c, m, q, rfl, hdir, hdeep, run_into_dir P fs c m q hs hdir hdeep⟩))))
      · cases ha : fs (dataDirOf P) with
        | none =>
          exact Or.inr (Or.inr (Or.inl ⟨c, m, q, rfl, hdir, ensureData_dataDir_none P fs ha,
            run_copy P fs c m q hs (ensureData_dataDir_none P fs ha) hdir⟩))
        | some e2 =>
          cases e2 with
          | dir =>
            exact Or.inr (Or.inr (Or.inl ⟨c, m, q, rfl, hdir,
              ensureData_dataDir_some P fs Entry.dir ha,
              run_copy P fs c m q hs (ensureData_dataDir_some P fs Entry.dir ha) hdir⟩))
          | file c2 m2 q2 =>
            exact Or.inr (Or.inr (Or.inr (Or.inl ⟨c, m, q, c2, m2, q2, rfl, hdir, rfl,
              run_data_file P fs c m q c2 m2 q2 hs ha hdir⟩)))

example :
    (copyLuaRun "/p" ((emptyFS.set "/p/lua/sys.lua" (Entry.file "return \x7b\x7d" 3 420)))).fs
      "/p/data/sys.lua" = some (Entry.file "return \x7b\x7d" 3 420) := by
  decide

example :
    (copyLuaRun "/p" emptyFS).out =
      ["Created data directory: /p/data",
       "WARNING: sys.lua not found at /p/lua/sys.lua",
       "Pre-build script completed"] := by
  decide

theorem getLast_pair (l : List String) (a b : String) : (l ++ [a, b]).getLast? = some b := by
  rw [show l ++ [a, b] = (l ++ [a]) ++ [b] by simp]
  exact List.getLast?_concat _

theorem run_fs_dataDir (P : String) (fs : FS) :
    (copyLuaRun P fs).fs (dataDirOf P) = ensureData P fs (dataDirOf P) := by
  rcases run_split P fs with ⟨h1, he⟩ | ⟨h1, he⟩ | ⟨c, m, q, h1, h2, h3, he⟩ |
    ⟨c, m, q, c2, m2, q2, h1, h2, h3, he⟩ | ⟨c, m, q, h1, h2, h3, he⟩ | ⟨c, m, q, h1, h2, h3, he⟩
  · rw [he]
  · rw [he]
  · rw [he]
    exact FS.set_ne _ _ _ _ (dataDir_ne_dstFile P)
  · rw [he, ensureData_of_isSome P fs (by rw [h3]; rfl)]
  · rw [he]
    exact FS.set_ne _ _ _ _ (fun hq => deepDst_ne_dataDir P hq.symm)
  · rw [he]

/-- C1 counterexample: under project root `/p1`, `lua/sys.lua` exists as a
regular file, yet after one run of the stager `data/sys.lua` does not exist
at all (the copy faults on the regular file occupying the `data` path), so
the unconditional claim fails. -/
theorem C1_counterexample :
    fsCounterC1 (srcFileOf "/p1") = some (Entry.file "new" 3 420) ∧
    ¬ ((copyLuaRun "/p1" fsCounterC1).fs (dstFileOf "/p1") = some (Entry.file "new" 3 420)) ∧
    (copyLuaRun "/p1" fsCounterC1).fs (dstFileOf "/p1") = none := by
  decide

/-- C1 (amended): for every project root whose filesystem state has
`lua/sys.lua` as a regular file, where additionally the `data` path is
absent or a directory and `data/sys.lua` is not a directory, one run of the
stager completes without fault and leaves at `data/sys.lua` a file whose
content, modification time and permission mode equal the source's
(overwriting any prior destination content). -/
theorem C1_copies_source_to_destination (P : String) (fs : FS) (c : String) (m q : Nat)
    (hsrc : fs (srcFileOf P) = some (Entry.file c m q))
    (hdata : fs (dataDirOf P) = none ∨ fs (dataDirOf P) = some Entry.dir)
    (hdst : ¬ (fs (dstFileOf P) = some Entry.dir)) :
    (copyLuaRun P fs).fault = none ∧
    (copyLuaRun P fs).fs (dstFileOf P) = some (Entry.file c m q) := by
  have hd : ensureData P fs (dataDirOf P) = some Entry.dir := by
    rcases hdata with h | h
    · exact ensureData_dataDir_none P fs h
    · exact ensureData_dataDir_some P fs _ h
  rw [run_copy P fs c m q hsrc hd hdst]
  exact ⟨rfl, FS.set_same _ _ _⟩

theorem C1_copies_source_to_destination_witness :
    (copyLuaRun "/w1" fsWitnessC1).fault = none ∧
    (copyLuaRun "/w1" fsWitnessC1).fs (dstFileOf "/w1") = some (Entry.file "v" 5 6) :=
  C1_copies_source_to_destination "/w1" fsWitnessC1 "v" 5 6 (by decide)
    (Or.inl (by decide)) (by decide)

/-- C2: if `lua/sys.lua` does not exist, one run of the stager performs no
copy (the entry at `data/sys.lua`, present or absent, is exactly what it
was before the run), logs a warning naming the missing source path, and
completes without fault. -/
theorem C2_missing_source_warns (P : String) (fs : FS)
    (h : fs (srcFileOf P) = none) :
    (copyLuaRun P fs).fault = none ∧
    (copyLuaRun P fs).fs (dstFileOf P) = fs (dstFileOf P) ∧
    ("WARNING: sys.lua not found at " ++ srcFileOf P) ∈ (copyLuaRun P fs).out := by
  rw [run_no_src P fs h]
  refine ⟨rfl, ensureData_dst P fs, ?_⟩
  simp

theorem C2_missing_source_warns_witness :
    (copyLuaRun "/w2" (fun _ => (none : Option Entry))).fault = none ∧
    (copyLuaRun "/w2" (fun _ => (none : Option Entry))).fs (dstFileOf "/w2") =
      (fun _ => (none : Option Entry)) (dstFileOf "/w2") ∧
    ("WARNING: sys.lua not found at " ++ srcFileOf "/w2") ∈
      (copyLuaRun "/w2" (fun _ => (none : Option Entry))).out :=
  C2_missing_source_warns "/w2" (fun _ => none) (by decide)

/-- C3: running the stager twice in succession on the same project root
(the source being whatever the first run left, which never touches
`lua/sys.lua`) leaves `data/sys.lua` with the same entry as running it
once. -/
theorem C3_idempotent (P : String) (fs : FS) :
    (copyLuaRun P (copyLuaRun P fs).fs).fs (dstFileOf P) =
      (copyLuaRun P fs).fs (dstFileOf P) := by
  rcases run_split P fs with ⟨h1, he⟩ | ⟨h1, he⟩ | ⟨c, m, q, h1, h2, h3, he⟩ |
    ⟨c, m, q, c2, m2, q2, h1, h2, h3, he⟩ | ⟨c, m, q, h1, h2, h3, he⟩ | ⟨c, m, q, h1, h2, h3, he⟩
  · have hfs1 : (copyLuaRun P fs).fs = ensureData P fs := by rw [he]
    rw [hfs1, run_no_src P (ensureData P fs) (by rw [ensureData_src]; exact h1),
      ensureData_of_isSome P _ (ensureData_dataDir_isSome P fs)]
  · have hfs1 : (copyLuaRun P fs).fs = ensureData P fs := by rw [he]
    rw [hfs1, run_src_dir P (ensureData P fs) (by rw [ensureData_src]; exact h1),
      ensureData_of_isSome P _ (ensureData_dataDir_isSome P fs)]
  · have hfs1 : (copyLuaRun P fs).fs = (ensureData P fs).set (dstFileOf P) (Entry.file c m q) := by
      rw [he]
    have hg1 : (ensureData P fs).set (dstFileOf P) (Entry.file c m q) (srcFileOf P) =
        some (Entry.file c m q) := by
      rw [FS.set_ne _ _ _ _ (srcFile_ne_dstFile P), ensureData_src]
      exact h1
    have hg2 : ensureData P ((ensureData P fs).set (dstFileOf P) (Entry.file c m q))
        (dataDirOf P) = some Entry.dir := by
      apply ensureData_dataDir_some
      rw [FS.set_ne _ _ _ _ (dataDir_ne_dstFile P)]
      exact h3
    have hg3 : ¬ ((ensureData P fs).set (dstFileOf P) (Entry.file c m q) (dstFileOf P) =
        some Entry.dir) := by
      rw [FS.set_same]
      simp
    rw [hfs1, run_copy P _ c m q hg1 hg2 hg3]
    dsimp only
    rw [FS.set_same]
    rw [FS.set_same]
  · have hfs1 : (copyLuaRun P fs).fs = fs := by rw [he]
    rw [hfs1, run_data_file P fs c m q c2 m2 q2 h1 h3 h2]
  · have hfs1 : (copyLuaRun P fs).fs = (ensureData P fs).set (deepDstOf P) (Entry.file c m q) := by
      rw [he]
    have hg1 : (ensureData P fs).set (deepDstOf P) (Entry.file c m q) (srcFileOf P) =
        some (Entry.file c m q) := by
      rw [FS.set_ne _ _ _ _ (fun hq => deepDst_ne_srcFile P hq.symm), ensureData_src]
      exact h1
    have hg2 : (ensureData P fs).set (deepDstOf P) (Entry.file c m q) (dstFileOf P) =
        some Entry.dir := by
      rw [FS.set_ne _ _ _ _ (fun hq => deepDst_ne_dstFile P hq.symm), ensureData_dst]
      exact h2
    have hg3 : ¬ ((ensureData P fs).set (deepDstOf P) (Entry.file c m q) (deepDstOf P) =
        some Entry.dir) := by
      rw [FS.set_same]
      simp
    rw [hfs1, run_into_dir P _ c m q hg1 hg2 hg3]
    dsimp only
    rw [FS.set_ne _ _ _ _ (fun hq => deepDst_ne_dstFile P hq.symm)]
    rw [FS.set_ne _ _ _ _ (fun hq => deepDst_ne_dstFile P hq.symm)]
    rw [ensureData_dst, ensureData_dst, hg2, h2]
  · have hfs1 : (copyLuaRun P fs).fs = ensureData P fs := by rw [he]
    have hg1 : ensureData P fs (srcFileOf P) = some (Entry.file c m q) := by
      rw [ensureData_src]
      exact h1
    have hg2 : ensureData P fs (dstFileOf P) = some Entry.dir := by
      rw [ensureData_dst]
      exact h2
    have hg3 : ensureData P fs (deepDstOf P) = some Entry.dir := by
      rw [ensureData_deep]
      exact h3
    rw [hfs1, run_into_dir_fault P _ c m q hg1 hg2 hg3,
      ensureData_of_isSome P _ (ensureData_dataDir_isSome P fs)]

/-- C4: if the `data` path does not exist before the run, it exists as a
directory afterward, whether or not the source asset exists. -/
theorem C4_creates_data_directory (P : String) (fs : FS)
    (h : fs (dataDirOf P) = none) :
    (copyLuaRun P fs).fs (dataDirOf P) = some Entry.dir := by
  rw [run_fs_dataDir P fs]
  exact ensureData_dataDir_none P fs h

theorem C4_creates_data_directory_witness :
    (copyLuaRun "/w4" (fun _ => (none : Option Entry))).fs (dataDirOf "/w4") =
      some Entry.dir :=
  C4_creates_data_directory "/w4" (fun _ => none) (by decide)

/-- C5 counterexample: when a directory occupies `data/sys.lua`, one run of
the stager writes the copy to `data/sys.lua/sys.lua` — a path that is
neither the `data` directory nor `data/sys.lua` — so the claim that only
those two paths are written fails. -/
theorem C5_counterexample :
    ¬ ("/p5/data/sys.lua/sys.lua" = dataDirOf "/p5") ∧
    ¬ ("/p5/data/sys.lua/sys.lua" = dstFileOf "/p5") ∧
    ¬ ((copyLuaRun "/p5" fsCounterC5).fs "/p5/data/sys.lua/sys.lua" =
        fsCounterC5 "/p5/data/sys.lua/sys.lua") := by
  decide

/-- C5 (amended): provided no directory occupies `data/sys.lua` before the
run, one run of the stager changes no path other than `data` (the directory
itself) and `data/sys.lua`; in particular `lua/sys.lua`, the rest of the
`lua` directory and the project root are unchanged. -/
theorem C5_frame (P : String) (fs : FS)
    (hdst : ¬ (fs (dstFileOf P) = some Entry.dir)) (p : String)
    (hp1 : ¬ (p = dataDirOf P)) (hp2 : ¬ (p = dstFileOf P)) :
    (copyLuaRun P fs).fs p = fs p := by
  rcases run_split P fs with ⟨h1, he⟩ | ⟨h1, he⟩ | ⟨c, m, q, h1, h2, h3, he⟩ |
    ⟨c, m, q, c2, m2, q2, h1, h2, h3, he⟩ | ⟨c, m, q, h1, h2, h3, he⟩ | ⟨c, m, q, h1, h2, h3, he⟩
  · rw [he]
    exact ensureData_other P fs p hp1
  · rw [he]
    exact ensureData_other P fs p hp1
  · rw [he]
    dsimp only
    rw [FS.set_ne _ _ _ _ hp2]
    exact ensureData_other P fs p hp1
  · rw [he]
  · exact absurd h2 hdst
  · exact absurd h2 hdst

theorem C5_frame_witness :
    ¬ ("/w5/lua/sys.lua" = dataDirOf "/w5") ∧
    ¬ ("/w5/lua/sys.lua" = dstFileOf "/w5") ∧
    (copyLuaRun "/w5" (fun p => if p = "/w5/lua/sys.lua" then
        some (Entry.file "k" 7 8) else none)).fs "/w5/lua/sys.lua" =
      (fun p => if p = "/w5/lua/sys.lua" then some (Entry.file "k" 7 8) else none :
        FS) "/w5/lua/sys.lua" :=
  ⟨by decide, by decide,
    C5_frame "/w5" (fun p => if p = "/w5/lua/sys.lua" then some (Entry.file "k" 7 8) else none)
      (by decide) "/w5/lua/sys.lua" (by decide) (by decide)⟩

/-- C6: the stager installs no fault handler: a run ends in a fault exactly
when the source-existence check passed and the copy step itself faulted
(the fault is passed through unchanged), and on such a run the completion
line is never printed.  The only error condition the script itself decides
is the missing source, which is downgraded to a warning (and therefore, by
the equivalence, never produces a fault). -/
theorem C6_faults_propagate (P : String) (fs : FS) (e : Fault) :
    ((copyLuaRun P fs).fault = some e ↔
      ((ensureData P fs (srcFileOf P)).isSome ∧
        copy2 (ensureData P fs) (srcFileOf P) (dstFileOf P) (dataDirOf P) =
          Except.error e)) ∧
    ((copyLuaRun P fs).fault = some e →
      ¬ ("Pre-build script completed" ∈ (copyLuaRun P fs).out)) := by
  have hout : (copyLuaRun P fs).fault = some e →
      ¬ ("Pre-build script completed" ∈ (copyLuaRun P fs).out) := by
    intro hf hm
    rcases run_split P fs with ⟨h1, he⟩ | ⟨h1, he⟩ | ⟨c, m, q, h1, h2, h3, he⟩ |
      ⟨c, m, q, c2, m2, q2, h1, h2, h3, he⟩ | ⟨c, m, q, h1, h2, h3, he⟩ |
      ⟨c, m, q, h1, h2, h3, he⟩
    · rw [he] at hf
      simp at hf
    · rw [he] at hm
      exact not_mem_mkdirOut_of_ne_created P fs _
        (fun hh => created_ne_completed _ hh.symm) hm
    · rw [he] at hf
      simp at hf
    · rw [he] at hm
      simp at hm
    · rw [he] at hf
      simp at hf
    · rw [he] at hm
      exact not_mem_mkdirOut_of_ne_created P fs _
        (fun hh => created_ne_completed _ hh.symm) hm
  refine ⟨⟨?_, ?_⟩, hout⟩
  · intro hf
    rcases hS : ensureData P fs (srcFileOf P) with _ | es
    · rw [run_no_src P fs ((ensureData_src P fs).symm.trans hS)] at hf
      simp at hf
    · cases hcp : copy2 (ensureData P fs) (srcFileOf P) (dstFileOf P) (dataDirOf P) with
      | ok f2 =>
        have he : copyLuaRun P fs =
            ⟨f2, mkdirOut P fs ++ ["Copied sys.lua to data folder",
              "Pre-build script completed"], none⟩ := by
          simp [copyLuaRun, mkdirOut, hS, hcp]
        rw [he] at hf
        simp at hf
      | error e2 =>
        have he : copyLuaRun P fs = ⟨ensureData P fs, mkdirOut P fs, some e2⟩ := by
          simp [copyLuaRun, mkdirOut, hS, hcp]
        rw [he] at hf
        have h3 : e2 = e := by simpa using hf
        subst h3
        exact ⟨rfl, rfl⟩
  · rintro ⟨hsome, hcp⟩
    rcases hS : ensureData P fs (srcFileOf P) with _ | es
    · rw [hS] at hsome
      simp at hsome
    · have he : copyLuaRun P fs = ⟨ensureData P fs, mkdirOut P fs, some e⟩ := by
        simp [copyLuaRun, mkdirOut, hS, hcp]
      rw [he]

theorem C6_faults_propagate_witness :
    ¬ ("Pre-build script completed" ∈
      (copyLuaRun "/w6" fsWitnessC6).out) :=
  (C6_faults_propagate "/w6" fsWitnessC6
    (Fault.isADirectoryError (srcFileOf "/w6"))).2 (by decide)

/-- C7: on every run that does not abort with a fault, the line
`Pre-build script completed` is printed, and it is the last line printed. -/
theorem C7_completion_printed_last (P : String) (fs : FS)
    (h : (copyLuaRun P fs).fault = none) :
    (copyLuaRun P fs).out.getLast? = some "Pre-build script completed" := by
  rcases run_split P fs with ⟨h1, he⟩ | ⟨h1, he⟩ | ⟨c, m, q, h1, h2, h3, he⟩ |
    ⟨c, m, q, c2, m2, q2, h1, h2, h3, he⟩ | ⟨c, m, q, h1, h2, h3, he⟩ | ⟨c, m, q, h1, h2, h3, he⟩
  · rw [he]
    exact getLast_pair _ _ _
  · rw [he] at h
    simp at h
  · rw [he]
    exact getLast_pair _ _ _
  · rw [he] at h
    simp at h
  · rw [he]
    exact getLast_pair _ _ _
  · rw [he] at h
    simp at h

theorem C7_completion_printed_last_witness :
    (copyLuaRun "/w7" (fun _ => (none : Option Entry))).out.getLast? =
      some "Pre-build script completed" :=
  C7_completion_printed_last "/w7" (fun _ => none) (by decide)

/-- C8: the line `Created data directory: <dataDir>` is printed on a run if
and only if no entry existed at the `data` path before that run. -/
theorem C8_created_iff_data_was_absent (P : String) (fs : FS) :
    ("Created data directory: " ++ dataDirOf P) ∈ (copyLuaRun P fs).out ↔
      fs (dataDirOf P) = none := by
  rcases run_split P fs with ⟨h1, he⟩ | ⟨h1, he⟩ | ⟨c, m, q, h1, h2, h3, he⟩ |
    ⟨c, m, q, c2, m2, q2, h1, h2, h3, he⟩ | ⟨c, m, q, h1, h2, h3, he⟩ | ⟨c, m, q, h1, h2, h3, he⟩
  · rw [he]
    dsimp only
    rw [List.mem_append, created_mem_mkdirOut]
    simp [created_ne_warning, created_ne_completed]
  · rw [he]
    exact created_mem_mkdirOut P fs
  · rw [he]
    dsimp only
    rw [List.mem_append, created_mem_mkdirOut]
    simp [created_ne_copied, created_ne_completed]
  · rw [he]
    simp [h3]
  · rw [he]
    dsimp only
    rw [List.mem_append, created_mem_mkdirOut]
    simp [created_ne_copied, created_ne_completed]
  · rw [he]
    exact created_mem_mkdirOut P fs

/-- C9: the destination-directory check tests only existence, not that the
path is a directory: when a regular file occupies the `data` path (and
consistently no directory occupies `data/sys.lua`) and the source path
exists, the run skips directory creation (nothing is printed before the
fault), leaves the whole filesystem — in particular the file at `data` —
untouched, and aborts in the copy step with a fault. -/
theorem C9_data_file_skips_mkdir_then_copy_faults (P : String) (fs : FS)
    (c : String) (m q : Nat)
    (ha : fs (dataDirOf P) = some (Entry.file c m q))
    (hsrc : (fs (srcFileOf P)).isSome)
    (hdst : ¬ (fs (dstFileOf P) = some Entry.dir)) :
    (copyLuaRun P fs).fault.isSome ∧
    (copyLuaRun P fs).out = [] ∧
    (copyLuaRun P fs).fs = fs := by
  have he : ensureData P fs = fs := ensureData_of_isSome P fs (by rw [ha]; rfl)
  have hm : mkdirOut P fs = [] := by
    unfold mkdirOut
    rw [ha]
    rfl
  cases hs : fs (srcFileOf P) with
  | none => rw [hs] at hsrc; simp at hsrc
  | some e =>
    cases e with
    | dir =>
      rw [run_src_dir P fs hs]
      exact ⟨rfl, hm, he⟩
    | file c2 m2 q2 =>
      rw [run_data_file P fs c2 m2 q2 c m q hs ha hdst]
      exact ⟨rfl, rfl, rfl⟩

theorem C9_data_file_skips_mkdir_then_copy_faults_witness :
    (copyLuaRun "/w9" fsWitnessC9).fault.isSome ∧
    (copyLuaRun "/w9" fsWitnessC9).out = [] ∧
    (copyLuaRun "/w9" fsWitnessC9).fs = fsWitnessC9 :=
  C9_data_file_skips_mkdir_then_copy_faults "/w9" fsWitnessC9 "d" 1 2
    (by decide) (by decide) (by decide)

/-- C10: the source check tests only existence, not file type: a directory
at `lua/sys.lua` sends the run into the copy branch, which faults reading
the directory source; and the missing-source warning is printed exactly
when no entry at all exists at `lua/sys.lua`. -/
theorem C10_source_check_is_existence_only (P : String) (fs : FS) :
    (fs (srcFileOf P) = some Entry.dir →
      (copyLuaRun P fs).fault = some (Fault.isADirectoryError (srcFileOf P))) ∧
    (("WARNING: sys.lua not found at " ++ srcFileOf P) ∈ (copyLuaRun P fs).out ↔
      fs (srcFileOf P) = none) := by
  constructor
  · intro h
    rw [run_src_dir P fs h]
  · rcases run_split P fs with ⟨h1, he⟩ | ⟨h1, he⟩ | ⟨c, m, q, h1, h2, h3, he⟩ |
      ⟨c, m, q, c2, m2, q2, h1, h2, h3, he⟩ | ⟨c, m, q, h1, h2, h3, he⟩ |
      ⟨c, m, q, h1, h2, h3, he⟩
    · rw [he]
      simp [h1]
    · rw [he]
      dsimp only
      constructor
      · intro hm
        exact absurd hm (not_mem_mkdirOut_of_ne_created P fs _
          (fun hh => created_ne_warning _ _ hh.symm))
      · intro hn
        rw [h1] at hn
        cases hn
    · rw [he]
      dsimp only
      rw [List.mem_append]
      constructor
      · intro hm
        rcases hm with hm | hm
        · exact absurd hm (not_mem_mkdirOut_of_ne_created P fs _
            (fun hh => created_ne_warning _ _ hh.symm))
        · simp [warning_ne_copied, warning_ne_completed] at hm
      · intro hn
        rw [h1] at hn
        cases hn
    · rw [he]
      dsimp only
      constructor
      · intro hm
        simp at hm
      · intro hn
        rw [h1] at hn
        cases hn
    · rw [he]
      dsimp only
      rw [List.mem_append]
      constructor
      · intro hm
        rcases hm with hm | hm
        · exact absurd hm (not_mem_mkdirOut_of_ne_created P fs _
            (fun hh => created_ne_warning _ _ hh.symm))
        · simp [warning_ne_copied, warning_ne_completed] at hm
      · intro hn
        rw [h1] at hn
        cases hn
    · rw [he]
      dsimp only
      constructor
      · intro hm
        exact absurd hm (not_mem_mkdirOut_of_ne_created P fs _
          (fun hh => created_ne_warning _ _ hh.symm))
      · intro hn
        rw [h1] at hn
        cases hn

theorem C10_source_check_is_existence_only_witness :
    (copyLuaRun "/wa" fsWitnessC10).fault =
      some (Fault.isADirectoryError (srcFileOf "/wa")) :=
  (C10_source_check_is_existence_only "/wa" fsWitnessC10).1 (by decide)
